import Mathlib

/-!
Verification of the a2a-langgraph-example multi-agent system.

This file gives a shallow embedding, in Lean 4, of the core logic of the
repository (orchestrator routing, A2A response parsing, response merging,
the bull specialist server message handler, and the tracing middleware),
and proves or refutes the specified properties against it.

Sources embedded:
- src/orchestrator/agent.py  (CustomOrchestratorAgent: _call_agent_via_a2a,
  _determine_agents, run_async)
- src/bull_agent/server.py   (handle_message)
- src/tracing/setup.py       (TracingMiddleware)
- src/cli/main.py            (query_orchestrator span creation)
-/

namespace A2A

/-- Model of a parsed JSON value, as produced by `response.json()` or
`await request.json()` in the Python sources. Numbers are modelled as
integers (no claim concerns fractional values). -/
inductive Json where
  | null : Json
  | bool (b : Bool) : Json
  | num (n : Int) : Json
  | str (s : String) : Json
  | arr (xs : List Json) : Json
  | obj (kvs : List (String × Json)) : Json

/-- Lookup of a key in the key-value list of a JSON object, first match wins
(JSON objects decoded by Python have unique keys). -/
def lookupKV (kvs : List (String × Json)) (k : String) : Option Json :=
  match kvs with
  | [] => none
  | (k2, v) :: rest => if k2 = k then some v else lookupKV rest k

/-- Python dictionary access `j[k]` / membership `k in j`, returning `none`
when `j` is not an object or the key is absent. -/
def Json.get? (j : Json) (k : String) : Option Json :=
  match j with
  | .obj kvs => lookupKV kvs k
  | _ => none

/-- Python truthiness of a JSON value: `None`, `False`, `0`, `""`, `[]` and
`\x7b\x7d` are falsy, everything else is truthy. -/
def truthy (j : Json) : Bool :=
  match j with
  | .null => false
  | .bool b => b
  | .num n => n != 0
  | .str s => !s.isEmpty
  | .arr xs => !xs.isEmpty
  | .obj kvs => !kvs.isEmpty

/-- Embedding of the response-text extraction in
`CustomOrchestratorAgent._call_agent_via_a2a` (src/orchestrator/agent.py,
lines 88-99). The Python code runs inside a `try` whose handler returns
the empty string, so every structural mismatch (a non-object where an
object is expected, a non-list `artifacts`, an empty list, a missing key,
a part whose `kind` is not the string `"text"`) collapses to `""`:
only `result.artifacts[0].parts[0].text` with `kind == "text"` is read.
A non-string `text` value never occurs in the wire shapes of this system
(both specialist servers emit string texts) and is mapped to `""`.
`artifactsFirstText` is the successful extraction path (the `return
part["text"]` of line 97); `extractText` adds the fall-through
`return ""` of line 98. -/
def artifactsFirstText (j : Json) : Option String :=
  match j.get? "result" with
  | none => none
  | some res =>
    match res.get? "artifacts" with
    | some (.arr (artifact :: _)) =>
      (match artifact.get? "parts" with
       | some (.arr (part :: _)) =>
         (match part.get? "kind", part.get? "text" with
          | some (.str "text"), some (.str t) => some t
          | _, _ => none)
       | _ => none)
    | _ => none

/-- Text returned by the response parsing of `_call_agent_via_a2a`: the
first-artifact first-part text when present, otherwise the empty string
(line 98 of src/orchestrator/agent.py). -/
def extractText (j : Json) : String :=
  (artifactsFirstText j).getD ""

/-- Outcome of the HTTP interaction performed by `_call_agent_via_a2a`.
The first four constructors stand for the exceptions that
`httpx.AsyncClient.post`, `raise_for_status` (non-2xx status) and
`response.json()` (non-JSON body) raise inside the `try` block; the last
carries the decoded JSON body of a successful response. -/
inductive HttpOutcome where
  | connectionError : HttpOutcome
  | timeout : HttpOutcome
  | statusError : HttpOutcome
  | invalidJson : HttpOutcome
  | jsonBody (j : Json) : HttpOutcome

/-- Embedding of `CustomOrchestratorAgent._call_agent_via_a2a`
(src/orchestrator/agent.py, lines 69-101): the whole body is wrapped in
`try ... except Exception: return ""`, so every raised exception yields
the empty string, and a decoded body goes through `extractText`. -/
def callAgentViaA2A (o : HttpOutcome) : String :=
  match o with
  | .jsonBody j => extractText j
  | _ => ""

/-- Structural condition under which `extractText` can return a non-empty
string: the body has `result.artifacts[0].parts[0]` with `kind == "text"`
and a string `text` field. Stated as an independent Bool so that the
missing-fields clause of the spec is a real theorem about `extractText`. -/
def hasArtifactTextShape (j : Json) : Bool :=
  match j.get? "result" with
  | none => false
  | some res =>
    match res.get? "artifacts" with
    | some (.arr (artifact :: _)) =>
      (match artifact.get? "parts" with
       | some (.arr (part :: _)) =>
         (match part.get? "kind", part.get? "text" with
          | some (.str "text"), some (.str _) => true
          | _, _ => false)
       | _ => false)
    | _ => false

/-- Modelled from the spec: the secondary response shape
`result.status.message.parts[].text` (spec section 4.1, shape (2)),
which the spec says the client must fall back to. Returns the text of
the first part carrying a string `text` field. This definition follows
the words of the spec, for comparison with `extractText`, which is
translated from the source. -/
def specStatusMessageText (j : Json) : Option String :=
  match (j.get? "result").bind (fun r => (r.get? "status").bind
          (fun st => (st.get? "message").bind (fun m => m.get? "parts"))) with
  | some (.arr parts) =>
    (parts.map (fun p => p.get? "text")).foldr
      (fun o acc =>
        match o with
        | some (.str t) => some t
        | _ => acc) none
  | _ => none

/-- Modelled from the spec: the primary response shape
`result.artifacts[].parts[].text` (spec section 4.1, shape (1)): the text
of the first artifact part carrying a string `text` field, if any. -/
def specArtifactsText (j : Json) : Option String :=
  match (j.get? "result").bind (fun r => r.get? "artifacts") with
  | some (.arr artifacts) =>
    (artifacts.map (fun a =>
      match a.get? "parts" with
      | some (.arr parts) =>
        (parts.map (fun p => p.get? "text")).foldr
          (fun o acc =>
            match o with
            | some (.str t) => some t
            | _ => acc) none
      | _ => none)).foldr
      (fun o acc => match o with | some t => some t | none => acc) none
  | _ => none

/-- Concrete response body matching shape (2) of the spec but not
shape (1): `result.status.message.parts[0].text = "hello"`, with no
`artifacts` key at all. -/
def shape2Body : Json :=
  .obj [("jsonrpc", .str "2.0"), ("id", .str "1"),
        ("result", .obj
          [("status", .obj
            [("state", .str "completed"),
             ("message", .obj
               [("role", .str "agent"),
                ("parts", .arr [.obj [("text", .str "hello")]])])])])]

/-- Boolean infix test on lists of characters: `listIsInfix pat hay` holds
when `pat` occurs contiguously inside `hay`. Embeds the Python substring
operator `pat in hay` on strings. -/
def listIsInfix (pat : List Char) : List Char → Bool
  | [] => pat.isEmpty
  | c :: rest => pat.isPrefixOf (c :: rest) || listIsInfix pat rest

/-- Python substring containment `pat in hay` for strings. -/
def strContains (hay pat : String) : Bool :=
  listIsInfix pat.toList hay.toList

/-- Python `s.lower()`: lowercase character by character (the sources only
ever lowercase ASCII keyword material, where this agrees with Python). -/
def strLower (s : String) : String :=
  ⟨s.toList.map Char.toLower⟩

/-- Python `s.strip()`: drop leading and trailing whitespace. -/
def pyStrip (s : String) : String :=
  ⟨((s.toList.dropWhile Char.isWhitespace).reverse.dropWhile
      Char.isWhitespace).reverse⟩

/-- Outcome of a call to the Anthropic completion API made through
`self.client.messages.create`: either the reply text
(`response.content[0].text` for the routing call, `response.content[0].text`
for the fallback call) or an exception carrying its message. -/
inductive PyCall where
  | returns (s : String) : PyCall
  | raises (e : String) : PyCall

/-- Keyword set of the first fast path of `_determine_agents`
(analysis queries always fan out to both specialists). -/
def analyzeKeywords : List String := ["analyze", "analysis"]

/-- Keyword set of the second fast path of `_determine_agents`
(explicit requests for both perspectives). -/
def bothKeywords : List String :=
  ["both", "bull and bear", "pros and cons", "opportunities and risks"]

/-- Embedding of `CustomOrchestratorAgent._determine_agents`
(src/orchestrator/agent.py, lines 103-153). The Anthropic classification
call is abstracted as the parameter `model`; the Python code lowercases
the query, short-circuits on the two keyword sets without touching the
client, and otherwise issues exactly one classification call whose reply
is stripped, lowercased and matched on the substrings both/bear/bull,
any exception on that path defaulting to both. The result pairs the
returned agent-name list with the number of classification calls made. -/
def determineAgents (model : PyCall) (query : String) : List String × Nat :=
  let queryLower := strLower query
  if analyzeKeywords.any (fun phrase => strContains queryLower phrase) then
    (["bull_analyst", "bear_analyst"], 0)
  else if bothKeywords.any (fun phrase => strContains queryLower phrase) then
    (["bull_analyst", "bear_analyst"], 0)
  else
    match model with
    | .raises _ => (["bull_analyst", "bear_analyst"], 1)
    | .returns s =>
      let agentResponse := strLower (pyStrip s)
      if strContains agentResponse "both" then
        (["bull_analyst", "bear_analyst"], 1)
      else if strContains agentResponse "bear" then
        (["bear_analyst"], 1)
      else if strContains agentResponse "bull" then
        (["bull_analyst"], 1)
      else
        (["bull_analyst", "bear_analyst"], 1)

/-- Embedding of the response-formatting tail of
`CustomOrchestratorAgent.run_async` (src/orchestrator/agent.py, lines
191-226): merge the two specialist responses, falling back to one direct
completion (parameter `fallback`) when both are empty; an exception in the
fallback completion is turned into the literal error string built by the
`except` clause. Returns the response text paired with the number of
fallback completions issued. -/
def mergeResponses (bull bear : String) (fallback : PyCall) : String × Nat :=
  if bull ≠ "" ∧ bear ≠ "" then
    ("## Bull Case\n\n" ++ bull ++ "\n\n---\n\n## Bear Case\n\n" ++ bear, 0)
  else if bull ≠ "" then
    ("## Bull Case\n\n" ++ bull, 0)
  else if bear ≠ "" then
    ("## Bear Case\n\n" ++ bear, 0)
  else
    match fallback with
    | .returns t => (t, 1)
    | .raises e => ("Error generating response: " ++ e, 1)

/-- Model of `parent_context.user_content` as read by `run_async`
(src/orchestrator/agent.py, lines 158-168): either absent (falsy), or a
`Content` carrying a `parts` attribute whose parts have an optional
`text` attribute (`none` models both a missing attribute and `None`),
or an object without `parts` but with a `text` attribute. -/
inductive UserContent where
  | absent : UserContent
  | withParts (parts : List (Option String)) : UserContent
  | textOnly (text : Option String) : UserContent

/-- Text of the first part whose `text` attribute is present and truthy,
or the empty string: the `for part in ... break` loop of `run_async` and
the reversed-messages scan of the bull server share this shape. -/
def firstTruthyText : List (Option String) → String
  | [] => ""
  | some s :: rest => if s = "" then firstTruthyText rest else s
  | none :: rest => firstTruthyText rest

/-- Model of the parts of the `InvocationContext` that `run_async` reads:
the user content and `session.state.get("query", "")` (`none` models a
context without a `session`/`state` attribute). -/
structure Ctx where
  userContent : UserContent
  sessionQuery : Option String

/-- Embedding of the query extraction at the head of `run_async`
(src/orchestrator/agent.py, lines 157-174): first truthy part text of the
user content (or its `text` attribute when it has no `parts`), then the
session-state fallback when that produced a falsy value. -/
def extractedQuery (ctx : Ctx) : String :=
  let q :=
    match ctx.userContent with
    | .absent => ""
    | .withParts parts => firstTruthyText parts
    | .textOnly t => t.getD ""
  if q = "" then (ctx.sessionQuery.getD "") else q

/-- Event yielded by `run_async`: an author tag (always `"agent"` in the
source) and the text of its single content part. -/
structure AEvent where
  author : String
  text : String
deriving DecidableEq

/-- External behavior feeding one `run_async` invocation: the reply of the
routing classification call, the outcomes of the two specialist HTTP
calls, and the reply of the fallback completion. -/
structure Env where
  routeReply : PyCall
  bullOutcome : HttpOutcome
  bearOutcome : HttpOutcome
  fallbackReply : PyCall

/-- Observable result of one `run_async` invocation: the events yielded,
and how many routing-classification calls, bull-specialist calls,
bear-specialist calls and fallback completions were issued. -/
structure RunResult where
  events : List AEvent
  routeCalls : Nat
  bullCalls : Nat
  bearCalls : Nat
  fallbackCalls : Nat
deriving DecidableEq

/-- Embedding of `CustomOrchestratorAgent.run_async`
(src/orchestrator/agent.py, lines 155-229): extract the query, bail out
with the single event `"No query provided"` when it is empty, otherwise
route with `_determine_agents`, call the selected specialists through
`_call_agent_via_a2a`, merge with the fallback, and yield one event with
the merged text. -/
def runAsync (env : Env) (ctx : Ctx) : RunResult :=
  let query := extractedQuery ctx
  if query = "" then
    ⟨[⟨"agent", "No query provided"⟩], 0, 0, 0, 0⟩
  else
    let routed := determineAgents env.routeReply query
    let agentsToCall := routed.fst
    let bullResponse :=
      if agentsToCall.contains "bull_analyst" then callAgentViaA2A env.bullOutcome else ""
    let bearResponse :=
      if agentsToCall.contains "bear_analyst" then callAgentViaA2A env.bearOutcome else ""
    let merged := mergeResponses bullResponse bearResponse env.fallbackReply
    ⟨[⟨"agent", merged.fst⟩], routed.snd,
      (if agentsToCall.contains "bull_analyst" then 1 else 0),
      (if agentsToCall.contains "bear_analyst" then 1 else 0),
      merged.snd⟩

/-- Python `j.get(k, d)` where `j` must be a dictionary: `none` models the
`AttributeError` raised on a non-dictionary receiver; otherwise the value
under `k`, or the default `d` when the key is absent. -/
def pyGetD (j : Json) (k : String) (d : Json) : Option Json :=
  match j with
  | .obj kvs => some ((lookupKV kvs k).getD d)
  | _ => none

/-- Scan of the part list in `handle_message` (src/bull_agent/server.py,
lines 68-73): `for part in parts: if "text" in part: query = part["text"];
break`. Returns `none` when the Python loop raises (membership test or
indexing on a part that supports neither), otherwise the final value of
`query` — the `text` value of the first part carrying one, or `""` when
the loop finds none. On a string part, `"text" in part` is a substring
test that never indexes afterwards only when it is false; on a list part
it is an element test and a later indexing by `"text"` raises. -/
def scanPartsList : List Json → Option Json
  | [] => some (.str "")
  | p :: rest =>
    match p with
    | .obj kvs =>
      (match lookupKV kvs "text" with
       | some t => some t
       | none => scanPartsList rest)
    | .str s => if strContains s "text" then none else scanPartsList rest
    | .arr xs =>
      if xs.any (fun x => match x with | .str s => s = "text" | _ => false) then
        none
      else scanPartsList rest
    | _ => none

/-- Iteration of `for part in parts` when `parts` is not necessarily a
list: iterating a dictionary yields its keys (strings), iterating a
string yields length-1 strings (for which `"text" in part` is always
false), and iterating `None`, a Bool or a number raises `TypeError`.
Returns the final `query` value, or `none` when the loop raises. -/
def scanParts : Json → Option Json
  | .arr ps => scanPartsList ps
  | .obj kvs =>
    if kvs.any (fun kv => strContains kv.fst "text") then none
    else some (.str "")
  | .str _ => some (.str "")
  | _ => none

/-- Outcome of `agent.invoke` in the bull server: an exception, or a result
dictionary whose optional `messages` list is modelled by the content of
each message (`none` for a message without a truthy `content`). -/
inductive AgentOutcome where
  | raises (e : String) : AgentOutcome
  | returns (messages : Option (List (Option String))) : AgentOutcome

/-- Per-request environment of the bull server handler: the LangGraph agent
invocation outcome, the four fresh UUIDs generated for the success
envelope, and the text of any internal exception (Python renders `str(e)`
into the -32603 error message). -/
structure ServerEnv where
  agentOutcome : AgentOutcome
  contextId : String
  taskId : String
  artifactId : String
  messageId : String
  excText : String

/-- JSON-RPC error body built by `handle_message`:
`jsonrpc`, the echoed `id`, and an `error` object with `code` and
`message`. -/
def rpcErrorBody (reqId : Json) (code : Int) (msg : String) : Json :=
  .obj [("jsonrpc", .str "2.0"), ("id", reqId),
        ("error", .obj [("code", .num code), ("message", .str msg)])]

/-- Success envelope built by `handle_message` (src/bull_agent/server.py,
lines 94-135), with the response text placed in the single artifact part
and echoed in the history entry. -/
def successBody (env : ServerEnv) (reqId : Json) (text : String) : Json :=
  .obj [("jsonrpc", .str "2.0"), ("id", reqId),
        ("result", .obj
          [("artifacts", .arr [.obj
             [("artifactId", .str env.artifactId),
              ("parts", .arr [.obj [("kind", .str "text"), ("text", .str text)]])]]),
           ("contextId", .str env.contextId),
           ("history", .arr [.obj
             [("contextId", .str env.contextId), ("kind", .str "message"),
              ("messageId", .str env.messageId),
              ("parts", .arr [.obj [("kind", .str "text"), ("text", .str text)]]),
              ("role", .str "agent"), ("taskId", .str env.taskId)]])])]

/-- HTTP response of the bull server: status code and JSON body
(`JSONResponse` defaults to status 200). -/
structure HttpResponse where
  status : Nat
  body : Json

/-- Response text extracted from the LangGraph result: first truthy
`content` of the reversed `messages` list, `""` when the result has no
`messages` key or none is truthy (src/bull_agent/server.py, lines 88-93). -/
def langGraphText (messages : Option (List (Option String))) : String :=
  match messages with
  | none => ""
  | some l => firstTruthyText l.reverse

/-- Body of the `try` block of `handle_message` (src/bull_agent/server.py,
lines 62-135) for a successfully decoded request body: `none` when the
Python code raises (handing control to the `except` clause), otherwise
the `JSONResponse` produced. -/
def handleCore (env : ServerEnv) (body : Json) : Option HttpResponse := do
  let params ← pyGetD body "params" (.obj [])
  let message ← pyGetD params "message" (.obj [])
  let parts ← pyGetD message "parts" (.arr [])
  let query ← scanParts parts
  if truthy query then
    match env.agentOutcome with
    | .raises _ => none
    | .returns messages =>
      some ⟨200, successBody env ((body.get? "id").getD .null)
                   (langGraphText messages)⟩
  else
    some ⟨200, rpcErrorBody ((body.get? "id").getD .null) (-32600)
                 "No text content in message"⟩

/-- Embedding of `handle_message` (src/bull_agent/server.py, lines 60-141).
The input `none` models a request whose body is not JSON
(`await request.json()` raises before `body` is bound, so the `except`
clause sees `"body" not in dir()` and uses a `None` id). When the `try`
body raises with `body` bound, the handler echoes `body.get("id")` in a
-32603 error — itself raising (HTTP 500) when `body` is not a
dictionary. -/
def handleMessage (env : ServerEnv) (reqBody : Option Json) : HttpResponse :=
  match reqBody with
  | none => ⟨200, rpcErrorBody .null (-32603) env.excText⟩
  | some body =>
    match handleCore env body with
    | some resp => resp
    | none =>
      match body with
      | .obj kvs =>
        ⟨200, rpcErrorBody ((lookupKV kvs "id").getD .null) (-32603) env.excText⟩
      | _ => ⟨500, .null⟩

/-- Trace context of one span: the W3C trace identifier shared by a whole
logical request and the span identifier of this hop
(traceparent format `version-traceid-spanid-flags`). -/
structure SpanCtx where
  traceId : Nat
  spanId : Nat
deriving DecidableEq

/-- Span kind as used by the sources: `SERVER` in the middleware,
`CLIENT` in the CLI. -/
inductive SpanKind where
  | server : SpanKind
  | client : SpanKind
  | internal : SpanKind
deriving DecidableEq

/-- Recorded span: name, kind, own context, and the context of the parent
span (none for a root span). -/
structure Span where
  name : String
  kind : SpanKind
  ctx : SpanCtx
  parent : Option SpanCtx
deriving DecidableEq

/-- Supply of fresh identifiers, modelling the random trace and span
identifier generation of the OpenTelemetry SDK: successive draws are
pairwise distinct. -/
structure Gen where
  next : Nat
deriving DecidableEq

/-- Modelled from the spec: `tracer.start_as_current_span` with an
extracted parent context (spec section 4.4 inbound side, and
src/tracing/setup.py lines 157-163). The OpenTelemetry span-construction
itself is library code not under src/: with a valid parent, the new span
keeps the parent trace identifier and draws a fresh span identifier;
without one it becomes a root span with a fresh trace identifier. -/
def startSpan (name : String) (kind : SpanKind) (parent : Option SpanCtx)
    (g : Gen) : Span × Gen :=
  match parent with
  | some p => (⟨name, kind, ⟨p.traceId, g.next⟩, some p⟩, ⟨g.next + 1⟩)
  | none => (⟨name, kind, ⟨g.next, g.next + 1⟩, none⟩, ⟨g.next + 2⟩)

/-- Header value on the wire: the W3C `traceparent` value
`00-traceid-spanid-01` is represented by its two identifier fields,
any other header value by its raw text. -/
inductive HeaderVal where
  | tp (traceId spanId : Nat) : HeaderVal
  | raw (s : String) : HeaderVal
deriving DecidableEq

/-- Modelled from the spec: W3C trace-context injection
(`opentelemetry.propagate.inject`, spec section 4.4 outbound side, used
explicitly in src/cli/main.py line 64 and by the httpx instrumentation
enabled in src/tracing/setup.py): writes the current span context as a
`traceparent` header. -/
def injectTP (c : SpanCtx) (headers : List (String × HeaderVal)) :
    List (String × HeaderVal) :=
  ("traceparent", .tp c.traceId c.spanId) :: headers

/-- Modelled from the spec: W3C trace-context extraction
(`opentelemetry.propagate.extract`, src/tracing/setup.py line 157): reads
the first `traceparent` header, if any. -/
def extractTP : List (String × HeaderVal) → Option SpanCtx
  | [] => none
  | (k, v) :: rest =>
    if k = "traceparent" then
      match v with
      | .tp t s => some ⟨t, s⟩
      | .raw _ => extractTP rest
    else extractTP rest

/-- ASGI scope fields read by the middleware: `scope["type"]`,
`scope["path"]` and `scope["headers"]`. -/
structure Scope where
  type : String
  path : String
  headers : List (String × HeaderVal)

/-- Embedding of `TracingMiddleware.__call__` (src/tracing/setup.py, lines
137-175): non-HTTP scopes and paths containing `".well-known"` are
forwarded without a span; every other request is wrapped in a
`SpanKind.SERVER` span built as a child of the extracted traceparent.
Returns the span created (none when forwarded untraced) and the updated
identifier supply. -/
def tracingMiddlewareCall (serviceName : String) (g : Gen) (scope : Scope) :
    Option Span × Gen :=
  if scope.type ≠ "http" then (none, g)
  else if strContains scope.path ".well-known" then (none, g)
  else
    let parentCtx := extractTP scope.headers
    let sg := startSpan serviceName .server parentCtx g
    (some sg.fst, sg.snd)

/-- Composition of one logical request: the CLI creates a root CLIENT span
and injects its context (src/cli/main.py, lines 50-65); the orchestrator
middleware extracts it and opens a SERVER span; the orchestrator fans out
to the bull and bear specialists with the orchestrator span context
injected (spec section 4.4 outbound side, performed by the httpx
instrumentation); each specialist middleware opens its own SERVER span.
Returns the four recorded spans, none if any hop was left untraced. -/
def requestScenario (g0 : Gen) : Option (List Span) :=
  let cli := startSpan "cli" .client none g0
  let cliSpan := cli.fst
  let headersOrch := injectTP cliSpan.ctx [("content-type", .raw "application/json")]
  match tracingMiddlewareCall "orchestrator" cli.snd ⟨"http", "/", headersOrch⟩ with
  | (none, _) => none
  | (some orchSpan, g2) =>
    let headersDown := injectTP orchSpan.ctx [("content-type", .raw "application/json")]
    match tracingMiddlewareCall "bull-agent" g2 ⟨"http", "/", headersDown⟩ with
    | (none, _) => none
    | (some bullSpan, g3) =>
      match tracingMiddlewareCall "bear-agent" g3 ⟨"http", "/", headersDown⟩ with
      | (none, _) => none
      | (some bearSpan, _) => some [cliSpan, orchSpan, bullSpan, bearSpan]

end A2A

namespace A2A

/-- Equivalence of the structural shape test with the success of the
extraction path: `hasArtifactTextShape` is exactly definedness of
`artifactsFirstText`. -/
theorem shape_isSome (j : Json) :
    hasArtifactTextShape j = (artifactsFirstText j).isSome := by
  unfold hasArtifactTextShape artifactsFirstText
  repeat' split
  all_goals rfl

/-- Soundness of the code extraction against the spec-modelled shape (1)
reader: whenever `_call_agent_via_a2a` extracts a text, that text is the
shape (1) text of the body. -/
theorem artifactsFirstText_spec (j : Json) (t : String)
    (h : artifactsFirstText j = some t) : specArtifactsText j = some t := by
  unfold artifactsFirstText at h
  unfold specArtifactsText
  split at h
  · exact absurd h (by simp)
  · rename_i res hres
    rw [hres]
    split at h
    · rename_i artifact rest hart
      simp only [Option.bind, hart]
      split at h
      · rename_i part restp hparts
        split at h
        · rename_i hkind htext
          simp only [Option.some.injEq] at h
          subst h
          simp [hparts, htext]
        · exact absurd h (by simp)
      · exact absurd h (by simp)
    · exact absurd h (by simp)

/-- C1 counterexample: `shape2Body` matches shape (2)
(`result.status.message.parts[].text` = "hello") and not shape (1), yet
`_call_agent_via_a2a` returns the empty string rather than "hello" — the
claimed secondary parse path does not exist in the code. -/
theorem extractText_misses_statusMessage_cex :
    specStatusMessageText shape2Body = some "hello" ∧
    specArtifactsText shape2Body = none ∧
    callAgentViaA2A (.jsonBody shape2Body) = "" :=
  ⟨rfl, rfl, rfl⟩

/-- C1 (amended): the Agent Invocation Client extracts text only from
`result.artifacts[0].parts[0]` (requiring `kind == "text"`); it has no
fallback for `result.status.message.parts[].text`, so for every response
body matching shape (2) but not shape (1) it returns the empty string. -/
theorem extractText_artifactsPathOnly (j : Json) (t : String)
    (_h2 : specStatusMessageText j = some t)
    (h1 : specArtifactsText j = none) :
    callAgentViaA2A (.jsonBody j) = "" := by
  show extractText j = ""
  unfold extractText
  cases hof : artifactsFirstText j with
  | none => rfl
  | some s => exact absurd h1 (by rw [artifactsFirstText_spec j s hof]; simp)

/-- C1 witness: the amended claim applied to the concrete shape (2) body. -/
theorem extractText_artifactsPathOnly_witness :
    callAgentViaA2A (.jsonBody shape2Body) = "" :=
  extractText_artifactsPathOnly shape2Body "hello" rfl rfl

/-- C2: for every query whose lower-casing contains one of the six
fast-path substrings, `_determine_agents` selects both specialists with
zero classification calls, for every behavior of the model dependency. -/
theorem determineAgents_fastPath_both (m : PyCall) (q : String)
    (h : (analyzeKeywords ++ bothKeywords).any
          (fun p => strContains (strLower q) p) = true) :
    determineAgents m q = (["bull_analyst", "bear_analyst"], 0) := by
  rw [List.any_append] at h
  rcases (Bool.or_eq_true _ _).mp h with hA | hB
  · simp [determineAgents, hA]
  · by_cases hA2 : (analyzeKeywords.any fun p => strContains (strLower q) p) = true
    · simp [determineAgents, hA2]
    · simp [determineAgents, hA2, hB]

/-- C2 witness: one query per fast-path keyword family, with model
dependencies that would answer differently if consulted. -/
theorem determineAgents_fastPath_both_witness :
    determineAgents (.returns "bear_analyst") "Analyze NVDA" =
      (["bull_analyst", "bear_analyst"], 0) ∧
    determineAgents (.raises "boom") "Pros and cons of NVDA" =
      (["bull_analyst", "bear_analyst"], 0) :=
  ⟨determineAgents_fastPath_both _ _ (by decide),
   determineAgents_fastPath_both _ _ (by decide)⟩

/-- C3: with both specialist texts non-empty the merged response is exactly
the bull-then-bear two-section format separated by a horizontal rule; with
exactly one non-empty it is exactly the single section whose header names
the side that responded. -/
theorem mergeResponses_sections (bull bear : String) (fb : PyCall) :
    (bull ≠ "" → bear ≠ "" →
      mergeResponses bull bear fb =
        ("## Bull Case\n\n" ++ bull ++ "\n\n---\n\n## Bear Case\n\n" ++ bear, 0)) ∧
    (bull ≠ "" → bear = "" →
      mergeResponses bull bear fb = ("## Bull Case\n\n" ++ bull, 0)) ∧
    (bull = "" → bear ≠ "" →
      mergeResponses bull bear fb = ("## Bear Case\n\n" ++ bear, 0)) := by
  refine ⟨fun hb he => ?_, fun hb he => ?_, fun hb he => ?_⟩ <;>
    simp [mergeResponses, hb, he]

/-- C3 witness: the three cases at concrete specialist texts. -/
theorem mergeResponses_sections_witness :
    mergeResponses "X" "Y" (.returns "F") =
      ("## Bull Case\n\nX\n\n---\n\n## Bear Case\n\nY", 0) ∧
    mergeResponses "X" "" (.returns "F") = ("## Bull Case\n\nX", 0) ∧
    mergeResponses "" "Y" (.returns "F") = ("## Bear Case\n\nY", 0) :=
  ⟨(mergeResponses_sections "X" "Y" (.returns "F")).1 (by decide) (by decide),
   (mergeResponses_sections "X" "" (.returns "F")).2.1 (by decide) rfl,
   (mergeResponses_sections "" "Y" (.returns "F")).2.2 rfl (by decide)⟩

/-- C4: when no fast-path keyword matches, the classification reply is
parsed case-insensitively in the order both / bear / bull, an unparseable
reply defaults to both, and an exception in the classification call
defaults to both; exactly one classification call is made in each case. -/
theorem determineAgents_modelParse (q : String)
    (h1 : (analyzeKeywords.any fun p => strContains (strLower q) p) = false)
    (h2 : (bothKeywords.any fun p => strContains (strLower q) p) = false) :
    (∀ e, determineAgents (.raises e) q = (["bull_analyst", "bear_analyst"], 1)) ∧
    (∀ s, strContains (strLower (pyStrip s)) "both" = true →
      determineAgents (.returns s) q = (["bull_analyst", "bear_analyst"], 1)) ∧
    (∀ s, strContains (strLower (pyStrip s)) "both" = false →
          strContains (strLower (pyStrip s)) "bear" = true →
      determineAgents (.returns s) q = (["bear_analyst"], 1)) ∧
    (∀ s, strContains (strLower (pyStrip s)) "both" = false →
          strContains (strLower (pyStrip s)) "bear" = false →
          strContains (strLower (pyStrip s)) "bull" = true →
      determineAgents (.returns s) q = (["bull_analyst"], 1)) ∧
    (∀ s, strContains (strLower (pyStrip s)) "both" = false →
          strContains (strLower (pyStrip s)) "bear" = false →
          strContains (strLower (pyStrip s)) "bull" = false →
      determineAgents (.returns s) q = (["bull_analyst", "bear_analyst"], 1)) := by
  refine ⟨fun e => ?_, fun s hb => ?_, fun s hb he => ?_,
          fun s hb he hu => ?_, fun s hb he hu => ?_⟩ <;>
    simp [determineAgents, h1, h2, *]

/-- C4 witness: each parse branch at a concrete non-fast-path query. -/
theorem determineAgents_modelParse_witness :
    determineAgents (.raises "boom") "hello" = (["bull_analyst", "bear_analyst"], 1) ∧
    determineAgents (.returns "BOTH") "hello" = (["bull_analyst", "bear_analyst"], 1) ∧
    determineAgents (.returns " Bear_Analyst ") "hello" = (["bear_analyst"], 1) ∧
    determineAgents (.returns "bull_analyst") "hello" = (["bull_analyst"], 1) ∧
    determineAgents (.returns "dunno") "hello" = (["bull_analyst", "bear_analyst"], 1) := by
  have h := determineAgents_modelParse "hello" (by decide) (by decide)
  exact ⟨h.1 "boom", h.2.1 "BOTH" (by decide),
         h.2.2.1 " Bear_Analyst " (by decide) (by decide),
         h.2.2.2.1 "bull_analyst" (by decide) (by decide) (by decide),
         h.2.2.2.2 "dunno" (by decide) (by decide) (by decide)⟩

/-- C5: every failure of a specialist invocation — connection error,
timeout, non-2xx status, non-JSON body, or a JSON body missing the
expected artifact-text fields — makes the Agent Invocation Client return
the empty string; no exception reaches the caller (the embedding is a
total function because the source wraps the whole call in
`try ... except: return ""`). -/
theorem callAgentViaA2A_failures_empty (o : HttpOutcome) :
    (o = .connectionError ∨ o = .timeout ∨ o = .statusError ∨ o = .invalidJson →
      callAgentViaA2A o = "") ∧
    (∀ j, o = .jsonBody j → hasArtifactTextShape j = false →
      callAgentViaA2A o = "") := by
  constructor
  · rintro (rfl | rfl | rfl | rfl) <;> rfl
  · rintro j rfl h
    show extractText j = ""
    unfold extractText
    have hs := shape_isSome j
    rw [h] at hs
    cases hof : artifactsFirstText j with
    | none => rfl
    | some s => rw [hof] at hs; simp at hs

/-- C5 witness: a timeout and a field-free JSON body both yield the empty
string. -/
theorem callAgentViaA2A_failures_empty_witness :
    callAgentViaA2A .timeout = "" ∧ callAgentViaA2A (.jsonBody (.obj [])) = "" :=
  ⟨(callAgentViaA2A_failures_empty .timeout).1 (Or.inr (Or.inl rfl)),
   (callAgentViaA2A_failures_empty (.jsonBody (.obj []))).2 (.obj []) rfl rfl⟩

/-- C6: with both specialist texts empty the aggregator invokes the
fallback completion exactly once and returns its text verbatim, and if
that completion raises it returns the explicit error-message string — in
both cases a string is produced, the embedding being total. -/
theorem mergeResponses_fallback (t e : String) :
    mergeResponses "" "" (.returns t) = (t, 1) ∧
    mergeResponses "" "" (.raises e) = ("Error generating response: " ++ e, 1) :=
  ⟨rfl, rfl⟩

/-- C7: in the one-logical-request scenario (CLI root span, orchestrator
middleware hop, fan-out to the bull and bear middleware hops), all four
recorded spans share the trace identifier of the CLI span, the four span
identifiers are pairwise distinct, and the recorded parents reconstruct
the call tree CLI-span → orchestrator-span → (bull-span, bear-span). -/
theorem requestScenario_traceTree (g0 : Gen) :
    ∃ cli orch bull bear : Span,
      requestScenario g0 = some [cli, orch, bull, bear] ∧
      cli.name = "cli" ∧ orch.name = "orchestrator" ∧
      bull.name = "bull-agent" ∧ bear.name = "bear-agent" ∧
      orch.ctx.traceId = cli.ctx.traceId ∧
      bull.ctx.traceId = cli.ctx.traceId ∧
      bear.ctx.traceId = cli.ctx.traceId ∧
      List.Pairwise Ne
        [cli.ctx.spanId, orch.ctx.spanId, bull.ctx.spanId, bear.ctx.spanId] ∧
      cli.parent = none ∧
      orch.parent = some cli.ctx ∧
      bull.parent = some orch.ctx ∧
      bear.parent = some orch.ctx := by
  obtain ⟨n⟩ := g0
  refine ⟨⟨"cli", .client, ⟨n, n + 1⟩, none⟩,
          ⟨"orchestrator", .server, ⟨n, n + 2⟩, some ⟨n, n + 1⟩⟩,
          ⟨"bull-agent", .server, ⟨n, n + 3⟩, some ⟨n, n + 2⟩⟩,
          ⟨"bear-agent", .server, ⟨n, n + 4⟩, some ⟨n, n + 2⟩⟩,
          ?_, rfl, rfl, rfl, rfl, rfl, rfl, rfl, ?_, rfl, rfl, rfl, rfl⟩
  · have hwk : strContains "/" ".well-known" = false := by decide
    simp [requestScenario, tracingMiddlewareCall, hwk, extractTP, injectTP, startSpan]
  · simp [List.pairwise_cons]

/-- Part-list scan of the bull server on parts carrying no truthy text:
the loop completes without raising and leaves a falsy query. -/
theorem scanPartsList_noText (ps : List Json)
    (hno : ∀ p ∈ ps, ∃ kvs, p = Json.obj kvs ∧
            ∀ t, lookupKV kvs "text" = some t → truthy t = false) :
    ∃ q, scanPartsList ps = some q ∧ truthy q = false := by
  induction ps with
  | nil => exact ⟨.str "", rfl, rfl⟩
  | cons p rest ih =>
    obtain ⟨kvs, rfl, ht⟩ := hno p (List.mem_cons_self p rest)
    cases hlk : lookupKV kvs "text" with
    | some t => exact ⟨t, by simp [scanPartsList, hlk], ht t hlk⟩
    | none =>
      obtain ⟨q, hq, htq⟩ := ih (fun x hx => hno x (List.mem_cons_of_mem _ hx))
      exact ⟨q, by simp [scanPartsList, hlk, hq], htq⟩

/-- C8: for every inbound message/send request whose message parts carry
no truthy text field, the bull server responds with HTTP status 200
carrying the structured JSON-RPC error object with code -32600 and the
echoed request id — not with an HTTP 5xx. -/
theorem handleMessage_noText_error32600 (env : ServerEnv)
    (bkvs pkvs mkvs : List (String × Json)) (ps : List Json)
    (hp : lookupKV bkvs "params" = some (.obj pkvs))
    (hm : lookupKV pkvs "message" = some (.obj mkvs))
    (hparts : lookupKV mkvs "parts" = some (.arr ps))
    (hno : ∀ p ∈ ps, ∃ kvs, p = Json.obj kvs ∧
            ∀ t, lookupKV kvs "text" = some t → truthy t = false) :
    handleMessage env (some (.obj bkvs)) =
      ⟨200, rpcErrorBody ((lookupKV bkvs "id").getD .null) (-32600)
              "No text content in message"⟩ := by
  obtain ⟨q, hq, htq⟩ := scanPartsList_noText ps hno
  simp [handleMessage, handleCore, pyGetD, hp, hm, hparts, scanParts,
        Json.get?, Option.bind, hq, htq]

/-- C8 witness: a concrete request whose single part has an empty text
field gets the -32600 error echoing id "42" in a 200 response. -/
theorem handleMessage_noText_error32600_witness :
    handleMessage ⟨.returns none, "c", "t", "a", "m", "e"⟩
        (some (.obj [("id", .str "42"),
          ("params", .obj [("message", .obj
            [("parts", .arr [.obj [("kind", .str "text"), ("text", .str "")]])])])])) =
      ⟨200, rpcErrorBody (.str "42") (-32600) "No text content in message"⟩ := by
  have h := handleMessage_noText_error32600 ⟨.returns none, "c", "t", "a", "m", "e"⟩
    [("id", .str "42"),
     ("params", .obj [("message", .obj
       [("parts", .arr [.obj [("kind", .str "text"), ("text", .str "")]])])])]
    [("message", .obj [("parts", .arr [.obj [("kind", .str "text"), ("text", .str "")]])])]
    [("parts", .arr [.obj [("kind", .str "text"), ("text", .str "")]])]
    [.obj [("kind", .str "text"), ("text", .str "")]]
    rfl rfl rfl ?_
  · exact h
  · intro p hp
    simp only [List.mem_singleton] at hp
    subst hp
    refine ⟨[("kind", Json.str "text"), ("text", Json.str "")], rfl, ?_⟩
    intro t ht
    simp [lookupKV] at ht
    subst ht
    rfl

/-- C9: every HTTP request whose path contains ".well-known" is forwarded
by the tracing middleware without a span being started, and every other
HTTP request is wrapped in a server-kind span named after the service. -/
theorem tracingMiddleware_exclusion (name : String) (g : Gen) (scope : Scope)
    (hhttp : scope.type = "http") :
    (strContains scope.path ".well-known" = true →
      tracingMiddlewareCall name g scope = (none, g)) ∧
    (strContains scope.path ".well-known" = false →
      ∃ sp, (tracingMiddlewareCall name g scope).fst = some sp ∧
             sp.kind = .server ∧ sp.name = name) := by
  constructor
  · intro hwk
    simp [tracingMiddlewareCall, hhttp, hwk]
  · intro hwk
    cases hx : extractTP scope.headers with
    | none =>
      refine ⟨⟨name, .server, ⟨g.next, g.next + 1⟩, none⟩, ?_, rfl, rfl⟩
      simp [tracingMiddlewareCall, hhttp, hwk, hx, startSpan]
    | some p =>
      refine ⟨⟨name, .server, ⟨p.traceId, g.next⟩, some p⟩, ?_, rfl, rfl⟩
      simp [tracingMiddlewareCall, hhttp, hwk, hx, startSpan]

/-- C9 witness: the agent-card discovery path is left untraced while the
root path gets a server span. -/
theorem tracingMiddleware_exclusion_witness :
    tracingMiddlewareCall "orchestrator" ⟨0⟩
        ⟨"http", "/.well-known/agent-card.json", []⟩ = (none, ⟨0⟩) ∧
    ∃ sp, (tracingMiddlewareCall "orchestrator" ⟨0⟩ ⟨"http", "/", []⟩).fst = some sp ∧
           sp.kind = .server ∧ sp.name = "orchestrator" :=
  ⟨(tracingMiddleware_exclusion "orchestrator" ⟨0⟩
      ⟨"http", "/.well-known/agent-card.json", []⟩ rfl).1 (by decide),
   (tracingMiddleware_exclusion "orchestrator" ⟨0⟩ ⟨"http", "/", []⟩ rfl).2 (by decide)⟩

/-- C10: when no non-empty query can be extracted from the invocation
context, `run_async` yields exactly the single event "No query provided"
and issues no classification call, no specialist call and no fallback
completion, for every behavior of those dependencies. -/
theorem runAsync_noQuery (env : Env) (ctx : Ctx)
    (h : extractedQuery ctx = "") :
    runAsync env ctx = ⟨[⟨"agent", "No query provided"⟩], 0, 0, 0, 0⟩ := by
  simp [runAsync, h]

/-- C10 witness: a context with only textless and empty parts and an empty
session query, against dependencies that would otherwise respond. -/
theorem runAsync_noQuery_witness :
    runAsync ⟨.returns "both", .jsonBody (.obj []), .jsonBody (.obj []), .returns "f"⟩
        ⟨.withParts [none, some ""], some ""⟩ =
      ⟨[⟨"agent", "No query provided"⟩], 0, 0, 0, 0⟩ :=
  runAsync_noQuery _ _ rfl

end A2A
